import Mathlib

set_option linter.unusedVariables false

/-!
Shallow embedding of `src/app.py`, the room/session coordination core of a
multiplayer narrative game server, together with theorems settling the frozen
claims about it.

Modelling conventions:
* Python strings become `String`; per-character operations work on `String.data`
  so that everything reduces in the kernel.
* Python dicts (`GAME_ROOMS`, `USERS`) become association lists over `String`
  keys with dict semantics (in-place replacement of an existing key, append of a
  new key, deletion of the key on `del`).
* Python sets of usernames become `Finset String`.
* The external HTTP call inside `call_ai_as_dm` is abstracted by an oracle value
  describing its outcome (parsed 200 reply, non-200 status, or raised
  exception); randomness (`random.randint`, `random.choice`) is likewise passed
  in as oracle data.  Everything after the request is translated line by line.
* Socket emissions become an explicit list of `Emit` values returned by each
  handler.
-/

/-! ## String helpers (per-character, mirroring Python semantics) -/

/-- Embedding of Python `str.lower()` (per-character lowercase). -/
def lower (s : String) : String := ⟨s.data.map Char.toLower⟩

/-- Embedding of Python substring containment `needle in haystack`,
on character lists. -/
def containsSub (needle : List Char) : List Char → Bool
  | [] => needle.isPrefixOf []
  | c :: t => needle.isPrefixOf (c :: t) || containsSub needle t

/-- Embedding of Python `needle in haystack` for strings. -/
def strContains (haystack needle : String) : Bool :=
  containsSub needle.data haystack.data

/-- Embedding of Python slicing `s[-n:]`: the last `n` characters of `s`
(the whole string when it is shorter than `n`). -/
def lastChars (n : Nat) (s : String) : String :=
  ⟨s.data.drop (s.data.length - n)⟩

/-! ## Constants of `app.py` -/

/-- Embedding of `DEFAULT_ROOM`, the string "main_adventure" (line 32). -/
def DEFAULT_ROOM : String := "main_adventure"

/-- Action-prefix set of the trigger condition (line 164, first `any`). -/
def actionPrefixes : List String := ["i ", "we ", "group: ", "the party "]

/-- Action-keyword set of the trigger condition (line 164, second `any`). -/
def actionKeywords : List String := ["attack", "cast", "investigate", "roll", "?"]

/-- Trigger-word set of the dice-annotation check (line 76). -/
def diceTriggers : List String := ["roll", "attack", "check"]

/-- Loot-word set of the item-grant check (line 168). -/
def lootWords : List String := ["find", "loot", "treasure"]

/-- Loot table of line 169. -/
def lootTable : List String :=
  ["Potion of Healing", "Rusty Sword", "Gold Coin", "Magic Scroll"]

/-! ## The pure predicates of the router and narrator client -/

/-- Embedding of the trigger condition of line 164:
message.lower() contains one of the action prefixes, or contains one of the
action keywords.  Note BOTH clauses use the Python `in` operator, i.e.
substring containment, including the first one. -/
def classify (message : String) : Bool :=
  actionPrefixes.any (fun p => strContains (lower message) p) ||
    actionKeywords.any (fun w => strContains (lower message) w)

/-- Embedding of the dice-annotation condition of line 76:
ai_response.lower() contains one of the dice trigger words. -/
def diceTrigger (reply : String) : Bool :=
  diceTriggers.any (fun w => strContains (lower reply) w)

/-- Embedding of the item-grant condition of line 168:
ai_response.lower() contains one of the loot words. -/
def shouldGrantItem (reply : String) : Bool :=
  lootWords.any (fun w => strContains (lower reply) w)

/-! ## Dice utility -/

/-- Embedding of `int(die_type[1:])`: the numeric part of a die name such as
`"d20"` (defined for the well-formed die names the source passes). -/
def dieSides (die_type : String) : Nat :=
  (die_type.data.drop 1).foldl (fun acc c => acc * 10 + (c.toNat - 48)) 0

/-- Embedding of `generate_dice_roll` (lines 38-40):
`sum(random.randint(1, int(die_type[1:])) for _ in range(num)) + modifier`.
The entropy source `rand` stands for `random.randint`; the source defaults are
`die_type="d20"`, `num=1`, `modifier=0`. -/
def generate_dice_roll (rand : Nat → Nat → Nat) (die_type : String) (num : Nat)
    (modifier : Int) : Int :=
  (((List.range num).map (fun _ => rand 1 (dieSides die_type))).sum : Nat) + modifier

/-! ## Data model -/

/-- Character sheet stored in the USERS entry of a connection (line 102); the Python
key `class` is spelled `charClass`. -/
structure Character where
  charClass : String
  hp : Int
  inventory : List String
  deriving DecidableEq

/-- One entry of `USERS` (line 36): username, character sheet, current room. -/
structure Session where
  username : String
  character : Character
  room : String
  deriving DecidableEq

/-- One entry of `GAME_ROOMS` (line 31): story text and player-name set.  The
per-room `Lock` object carries no state and is not represented. -/
structure RoomState where
  story_state : String
  players : Finset String
  deriving DecidableEq

/-- The `GAME_ROOMS` dict, as an association list with dict semantics. -/
abbrev Registry := List (String × RoomState)

/-- The process-wide mutable state of `app.py`: the two global dicts. -/
structure ServerState where
  GAME_ROOMS : Registry
  USERS : List (String × Session)
  deriving DecidableEq

/-! ## Association-list operations with Python-dict semantics -/

/-- Dict lookup `m[k]` / `k in m`. -/
def lookupKey {α : Type} (m : List (String × α)) (k : String) : Option α :=
  match m with
  | [] => none
  | (k', v) :: rest => if k' = k then some v else lookupKey rest k

/-- Dict assignment `m[k] = v`: replaces the value in place when the key is
present, appends otherwise. -/
def setKey {α : Type} (m : List (String × α)) (k : String) (v : α) :
    List (String × α) :=
  match m with
  | [] => [(k, v)]
  | (k', v') :: rest => if k' = k then (k, v) :: rest else (k', v') :: setKey rest k v

/-- Dict deletion `del m[k]`. -/
def eraseKey {α : Type} (m : List (String × α)) (k : String) :
    List (String × α) :=
  match m with
  | [] => []
  | (k', v') :: rest => if k' = k then rest else (k', v') :: eraseKey rest k

/-! ## Oracle data for the external call and the random source -/

/-- Outcome of the `requests.post` call in `call_ai_as_dm` (lines 70-87):
either a 200 response whose parsed, stripped reply text is given, a non-200
status code, or a raised exception rendered as `str(e)`. -/
inductive HttpResult where
  | ok (reply : String)
  | status (code : Nat)
  | exn (msg : String)
  deriving DecidableEq

/-- Environment inputs consumed while handling one message: the HTTP outcome,
the `random.randint` source, the `random.choice` index, and the
`datetime.now().strftime` timestamp. -/
structure Oracle where
  outcome : HttpResult
  rand : Nat → Nat → Nat
  choice : Nat
  time : String

/-! ## Socket emissions -/

/-- Destination of an `emit` call. -/
inductive Target where
  | room (id : String) (includeSelf : Bool)
  | conn (sid : String)
  | all
  deriving DecidableEq

/-- One `emit` call made by a handler. -/
inductive Emit where
  | msg (t : Target) (username text : String)
  | characterUpdate (t : Target) (inventory : List String)
  | roomUpdate (t : Target) (rooms : List (String × Nat))
  deriving DecidableEq

/-! ## The handlers of `app.py` -/

/-- Context string built at line 165; the exact rendering of the character dict
is immaterial because the request is abstracted by the oracle outcome. -/
def contextString (username : String) (c : Character) : String :=
  "Player: " ++ username ++ ", Character: class=" ++ c.charClass

/-- Story line used when `call_ai_as_dm` lazily creates a room (line 46). -/
def newAdventureStory : String :=
  "A new adventure begins in a vast world of magic and mystery."

/-- Story line used when `on_join` lazily creates a room (line 120). -/
def newPartyStory : String := "A new party forms. What adventures await?"

/-- Embedding of `call_ai_as_dm` (lines 42-87).  The prompt/context parameters
feed only the HTTP request, whose outcome the oracle supplies; the room
ensure-and-read, the dice annotation, the story append and the three return
paths are translated directly.  Returns the reply string and the updated
registry. -/
def call_ai_as_dm (o : Oracle) (prompt room_id : String) (context : Option String)
    (rooms : Registry) : String × Registry :=
  let rooms1 :=
    if (lookupKey rooms room_id).isSome then rooms
    else setKey rooms room_id ⟨newAdventureStory, ∅⟩
  let room_data := (lookupKey rooms1 room_id).getD ⟨"", ∅⟩
  match o.outcome with
  | .ok reply =>
    let ai_response :=
      if diceTrigger reply then
        reply ++ " (DM rolls: " ++
          toString (generate_dice_roll o.rand "d20" 1 0) ++ " on d20)"
      else reply
    let rooms2 := setKey rooms1 room_id
      { room_data with
        story_state := room_data.story_state ++ "\n" ++ o.time ++ ": " ++ ai_response }
    (ai_response, rooms2)
  | .status code =>
    ("DM Error: " ++ toString code ++ " - Check API key/quotas.", rooms1)
  | .exn msg =>
    ("DM Exception: " ++ msg, rooms1)

/-- Embedding of the `/api/rooms` endpoint body (line 95):
a dict comprehension mapping every key of GAME_ROOMS to the size of its
player set — note NO filtering of empty rooms. -/
def get_rooms (rooms : Registry) : List (String × Nat) :=
  rooms.map (fun kv => (kv.1, kv.2.players.card))

/-- Embedding of the comprehension at line 149:
the same comprehension restricted by the guard v.get("players"), keeping only
rooms with a non-empty player set. -/
def roomsSnapshotNonempty (rooms : Registry) : List (String × Nat) :=
  (rooms.filter (fun kv => decide (kv.2.players ≠ ∅))).map
    (fun kv => (kv.1, kv.2.players.card))

/-- Embedding of `on_create_character` (lines 97-105): unconditional dict
assignment, then a `character_update` emit to the creating connection. -/
def on_create_character (s : ServerState) (sid username charClass : String)
    (maxHP : Int) : ServerState × List Emit :=
  (⟨s.GAME_ROOMS,
    setKey s.USERS sid ⟨username, ⟨charClass, maxHP, []⟩, DEFAULT_ROOM⟩⟩,
   [Emit.characterUpdate (Target.conn sid) []])

/-- Room id chosen at line 115: the requested room if the key is present
and truthy, else DEFAULT_ROOM (a missing key and an empty string both fall to
the default). -/
def joinRoomId (room? : Option String) : String :=
  match room? with
  | some r => if r = "" then DEFAULT_ROOM else r
  | none => DEFAULT_ROOM

/-- Story of a room after the lazy creation `on_join` performs (lines 119-120):
the existing story, or the fresh-room line when the id is unknown. -/
def ensuredStory (rooms : Registry) (id : String) : String :=
  match lookupKey rooms id with
  | some r => r.story_state
  | none => newPartyStory

/-- Embedding of `on_join` (lines 107-131): guard on session existence, set the
session room field, lazily create the room, add the username to its player
set, then emit the join notice, the unfiltered room-list broadcast (line 126)
and the private story snapshot (lines 129-131). -/
def on_join (s : ServerState) (sid : String) (room? : Option String) :
    ServerState × List Emit :=
  match lookupKey s.USERS sid with
  | none =>
    (s, [Emit.msg (Target.conn sid) "System" "Create a character first!"])
  | some sess =>
    let username := sess.username
    let room_id := joinRoomId room?
    let users2 := setKey s.USERS sid { sess with room := room_id }
    let rooms1 :=
      if (lookupKey s.GAME_ROOMS room_id).isSome then s.GAME_ROOMS
      else setKey s.GAME_ROOMS room_id ⟨newPartyStory, ∅⟩
    let r := (lookupKey rooms1 room_id).getD ⟨"", ∅⟩
    let rooms2 := setKey rooms1 room_id { r with players := insert username r.players }
    let current_state := lastChars 500 (((lookupKey rooms2 room_id).getD ⟨"", ∅⟩).story_state)
    (⟨rooms2, users2⟩,
     [Emit.msg (Target.room room_id true) "System"
        (username ++ " joins " ++ room_id ++ "! The tale unfolds..."),
      Emit.roomUpdate Target.all (get_rooms rooms2),
      Emit.msg (Target.conn sid) "DM (AI)" ("Current tale: " ++ current_state ++ "...")])

/-- Embedding of `on_leave` (lines 133-149): guard on session existence, discard
the username from the player set of the session room, delete the room when the
set becomes empty, then emit the leave notice and the filtered room-list
broadcast (line 149).  The session room field is not touched. -/
def on_leave (s : ServerState) (sid : String) : ServerState × List Emit :=
  match lookupKey s.USERS sid with
  | none => (s, [])
  | some sess =>
    let username := sess.username
    let room_id := sess.room
    let rooms2 :=
      match lookupKey s.GAME_ROOMS room_id with
      | none => s.GAME_ROOMS
      | some r =>
        let players2 := r.players.erase username
        if players2 = ∅ then eraseKey s.GAME_ROOMS room_id
        else setKey s.GAME_ROOMS room_id { r with players := players2 }
    (⟨rooms2, s.USERS⟩,
     [Emit.msg (Target.room room_id true) "System" (username ++ " departs the realm."),
      Emit.roomUpdate Target.all (roomsSnapshotNonempty rooms2)])

/-- Item drawn by `random.choice(...)` at line 169, with the choice index
supplied by the oracle. -/
def lootItem (o : Oracle) : String :=
  lootTable.getD (o.choice % lootTable.length) ""

/-- Embedding of `handle_message` (lines 151-172): guard on session existence,
echo the raw message to the session room excluding the sender, and when the
trigger condition of line 164 holds, run the narrator call, optionally grant a
loot item to the sender (lines 168-171), and broadcast the narrator reply. -/
def handle_message (s : ServerState) (sid text : String) (o : Oracle) :
    ServerState × List Emit :=
  match lookupKey s.USERS sid with
  | none => (s, [])
  | some sess =>
    let username := sess.username
    let room_id := sess.room
    let echo := Emit.msg (Target.room room_id false) username text
    if classify text then
      let res := call_ai_as_dm o text room_id
        (some (contextString username sess.character)) s.GAME_ROOMS
      let ai_response := res.1
      let rooms2 := res.2
      if shouldGrantItem ai_response then
        let new_item := lootItem o
        let inv2 := sess.character.inventory ++ [new_item]
        let sess2 := { sess with character := { sess.character with inventory := inv2 } }
        (⟨rooms2, setKey s.USERS sid sess2⟩,
         [echo,
          Emit.characterUpdate (Target.conn sid) inv2,
          Emit.msg (Target.room room_id true) "DM (AI)" ai_response])
      else
        (⟨rooms2, s.USERS⟩,
         [echo, Emit.msg (Target.room room_id true) "DM (AI)" ai_response])
    else
      (s, [echo])

/-! ## Events and reachability -/

/-- One inbound socket event, with the oracle data a message event consumes. -/
inductive Event where
  | createCharacter (sid username charClass : String) (maxHP : Int)
  | join (sid : String) (room? : Option String)
  | leave (sid : String)
  | message (sid text : String) (o : Oracle)

/-- Dispatch of one event to its handler. -/
def step (s : ServerState) : Event → ServerState × List Emit
  | .createCharacter sid u c hp => on_create_character s sid u c hp
  | .join sid r? => on_join s sid r?
  | .leave sid => on_leave s sid
  | .message sid text o => handle_message s sid text o

/-- Initial state: both global dicts empty. -/
def initState : ServerState := ⟨[], []⟩

/-- States reachable from the initial state by any sequence of events. -/
inductive Reachable : ServerState → Prop where
  | init : Reachable initState
  | step (s : ServerState) (e : Event) (hs : Reachable s) : Reachable (step s e).1

/-- Discriminator for message events. -/
def Event.isMessage : Event → Bool
  | .message _ _ _ => true
  | _ => false

/-- States reachable using only character-creation, join and leave events. -/
inductive ReachableNoNarrator : ServerState → Prop where
  | init : ReachableNoNarrator initState
  | step (s : ServerState) (e : Event) (hs : ReachableNoNarrator s)
      (he : e.isMessage = false) : ReachableNoNarrator (step s e).1

/-! ## Observation helpers -/

/-- Player set of a registered room, `none` when the room id is absent. -/
def playersOf (s : ServerState) (id : String) : Option (Finset String) :=
  (lookupKey s.GAME_ROOMS id).map (fun r => r.players)

/-- Story of a registered room, `none` when the room id is absent. -/
def storyOf (rooms : Registry) (id : String) : Option String :=
  (lookupKey rooms id).map (fun r => r.story_state)

/-- Diagnostic string `call_ai_as_dm` returns for each failure outcome
(lines 85 and 87), `none` for a success. -/
def failureDiagnostic : HttpResult → Option String
  | .ok _ => none
  | .status code => some ("DM Error: " ++ toString code ++ " - Check API key/quotas.")
  | .exn msg => some ("DM Exception: " ++ msg)

/-- Story of a room after the lazy creation `call_ai_as_dm` performs
(lines 45-46): the existing story, or the fresh-room line of line 46 when the
id is unknown. -/
def ensuredStoryDM (rooms : Registry) (id : String) : String :=
  match lookupKey rooms id with
  | some r => r.story_state
  | none => newAdventureStory

/-! ## Lemmas about the dict operations -/

theorem lookupKey_setKey_self {α : Type} (m : List (String × α)) (k : String) (v : α) :
    lookupKey (setKey m k v) k = some v := by
  induction m with
  | nil => simp [setKey, lookupKey]
  | cons kv rest ih =>
    obtain ⟨k', v'⟩ := kv
    by_cases h : k' = k
    · simp [setKey, lookupKey, h]
    · simp [setKey, lookupKey, h, ih]

theorem lookupKey_setKey_ne {α : Type} (m : List (String × α)) (k k' : String) (v : α)
    (h : k' ≠ k) : lookupKey (setKey m k v) k' = lookupKey m k' := by
  induction m with
  | nil => simp [setKey, lookupKey, Ne.symm h]
  | cons kv rest ih =>
    obtain ⟨k'', v''⟩ := kv
    by_cases h2 : k'' = k
    · subst h2
      simp [setKey, lookupKey, Ne.symm h]
    · by_cases h3 : k'' = k'
      · simp [setKey, lookupKey, h2, h3, h]
      · simp [setKey, lookupKey, h2, h3, ih]

/-- Keys of an association list are pairwise distinct: the representation
invariant of a Python dict. -/
def KeysNodup {α : Type} (m : List (String × α)) : Prop :=
  (m.map Prod.fst).Nodup

theorem lookupKey_none_of_not_mem {α : Type} (m : List (String × α)) (k : String)
    (h : k ∉ m.map Prod.fst) : lookupKey m k = none := by
  induction m with
  | nil => rfl
  | cons kv rest ih =>
    obtain ⟨k', v'⟩ := kv
    simp only [List.map_cons, List.mem_cons] at h
    push_neg at h
    simp [lookupKey, Ne.symm h.1, ih h.2]

theorem lookupKey_eraseKey_self {α : Type} (m : List (String × α)) (k : String)
    (hnd : KeysNodup m) : lookupKey (eraseKey m k) k = none := by
  induction m with
  | nil => rfl
  | cons kv rest ih =>
    obtain ⟨k', v'⟩ := kv
    simp only [KeysNodup, List.map_cons, List.nodup_cons] at hnd
    by_cases h : k' = k
    · subst h
      simp only [eraseKey, if_pos rfl]
      exact lookupKey_none_of_not_mem rest k' hnd.1
    · simp [eraseKey, lookupKey, h, ih hnd.2]

theorem mem_of_lookupKey_eq_some {α : Type} (m : List (String × α)) (k : String)
    (v : α) (h : lookupKey m k = some v) : (k, v) ∈ m := by
  induction m with
  | nil => simp [lookupKey] at h
  | cons kv rest ih =>
    obtain ⟨k', v'⟩ := kv
    by_cases h2 : k' = k
    · subst h2
      simp [lookupKey] at h
      subst h
      exact List.mem_cons_self _ _
    · simp only [lookupKey, if_neg h2] at h
      exact List.mem_cons_of_mem _ (ih h)

theorem mem_setKey {α : Type} (m : List (String × α)) (k : String) (v : α)
    (x : String × α) (h : x ∈ setKey m k v) : x = (k, v) ∨ x ∈ m := by
  induction m with
  | nil => simpa [setKey] using h
  | cons kv rest ih =>
    obtain ⟨k', v'⟩ := kv
    by_cases h2 : k' = k
    · simp only [setKey, if_pos h2, List.mem_cons] at h
      rcases h with h | h
      · exact Or.inl h
      · exact Or.inr (List.mem_cons_of_mem _ h)
    · simp only [setKey, if_neg h2, List.mem_cons] at h
      rcases h with h | h
      · exact Or.inr (by simp [h])
      · rcases ih h with h3 | h3
        · exact Or.inl h3
        · exact Or.inr (List.mem_cons_of_mem _ h3)

theorem mem_eraseKey {α : Type} (m : List (String × α)) (k : String)
    (x : String × α) (h : x ∈ eraseKey m k) : x ∈ m := by
  induction m with
  | nil => simp [eraseKey] at h
  | cons kv rest ih =>
    obtain ⟨k', v'⟩ := kv
    by_cases h2 : k' = k
    · simp only [eraseKey, if_pos h2] at h
      exact List.mem_cons_of_mem _ h
    · simp only [eraseKey, if_neg h2, List.mem_cons] at h
      rcases h with h | h
      · simp [h]
      · exact List.mem_cons_of_mem _ (ih h)

theorem setKey_setKey {α : Type} (m : List (String × α)) (k : String) (a b : α) :
    setKey (setKey m k a) k b = setKey m k b := by
  induction m with
  | nil => simp [setKey]
  | cons kv rest ih =>
    obtain ⟨k', v'⟩ := kv
    by_cases h : k' = k
    · simp [setKey, h]
    · simp [setKey, h, ih]

theorem lookupKey_eraseKey_ne {α : Type} (m : List (String × α)) (k k' : String)
    (h : k' ≠ k) : lookupKey (eraseKey m k) k' = lookupKey m k' := by
  induction m with
  | nil => simp [eraseKey]
  | cons kv rest ih =>
    obtain ⟨k'', v''⟩ := kv
    by_cases h2 : k'' = k
    · subst h2
      simp [eraseKey, lookupKey, Ne.symm h]
    · by_cases h3 : k'' = k'
      · simp [eraseKey, lookupKey, h2, h3, h]
      · simp [eraseKey, lookupKey, h2, h3, ih]

/-! ## Lemmas about the string helpers -/

/-- Characterisation of substring containment: the needle occurs at some
offset of the haystack. -/
theorem containsSub_iff (needle h : List Char) :
    containsSub needle h = true ↔ ∃ i, needle <+: h.drop i := by
  induction h with
  | nil =>
    simp only [containsSub, List.drop_nil]
    constructor
    · intro hc
      exact ⟨0, by simpa using hc⟩
    · rintro ⟨i, hi⟩
      simpa using hi
  | cons c t ih =>
    simp only [containsSub, Bool.or_eq_true, ih]
    constructor
    · rintro (h1 | ⟨i, hi⟩)
      · exact ⟨0, by simpa using h1⟩
      · exact ⟨i + 1, hi⟩
    · rintro ⟨i, hi⟩
      cases i with
      | zero => exact Or.inl (by simpa using hi)
      | succ j => exact Or.inr ⟨j, hi⟩

/-- The slice of the last `n` characters never exceeds `n` characters. -/
theorem lastChars_length_le (n : Nat) (s : String) : (lastChars n s).length ≤ n := by
  simp only [lastChars, String.length, List.length_drop]
  omega

/-- When the string has at most `n` characters, the slice is the whole string. -/
theorem lastChars_of_length_le (n : Nat) (s : String) (h : s.length ≤ n) :
    lastChars n s = s := by
  have h2 : s.data.length - n = 0 := by
    have hlen : s.data.length = s.length := rfl
    omega
  show (⟨s.data.drop (s.data.length - n)⟩ : String) = s
  rw [h2, List.drop_zero]

/-! ## Claim C1: the trigger classification -/

/-- Modelled from the claim wording for C1: true iff the lowercased message
STARTS WITH one of the action prefixes, or contains one of the four action
keywords, or contains a question mark.  The code (line 164) instead tests all
of these with substring containment. -/
def classifyClaim (message : String) : Bool :=
  (["i ", "we ", "group: ", "the party "].any
      (fun p => p.data.isPrefixOf (lower message).data)) ||
    (["attack", "cast", "investigate", "roll"].any
      (fun w => strContains (lower message) w)) ||
    strContains (lower message) "?"

/-- Claim C1, counterexample: the message "hi there" does not start with any
action prefix, contains no action keyword and no question mark, so the claimed
classification returns false on it; the code classifies it as a trigger because
the lowercased text CONTAINS the substring "i " at offset 1.  Hence the claimed
if-and-only-if characterisation of the trigger classification is false. -/
theorem C1_counterexample :
    classify "hi there" = true ∧ classifyClaim "hi there" = false := by decide

/-- Claim C1, amended: the trigger classification is a deterministic pure
predicate of the message text returning true iff the lowercased message
CONTAINS (as a substring, not only as a leading prefix) one of the action
prefixes, or contains one of the keywords attack, cast, investigate, roll, or
contains a question mark; the three quoted examples evaluate as stated. -/
theorem C1_classify_amended :
    (∀ m : String, classify m = true ↔
      ((∃ p ∈ actionPrefixes, ∃ i, p.data <+: ((lower m).data.drop i)) ∨
        (∃ w ∈ actionKeywords, ∃ i, w.data <+: ((lower m).data.drop i)))) ∧
      classify "I attack the goblin" = true ∧
      classify "hello everyone" = false ∧
      classify "what happens?" = true := by
  refine ⟨?_, by decide, by decide, by decide⟩
  intro m
  simp only [classify, Bool.or_eq_true, List.any_eq_true, strContains, containsSub_iff]

/-! ## Claim C4: duplicate character creation -/

/-- States used by the C4 counterexample: two character-creation events arrive
on the same connection id. -/
def c4s1 : ServerState := (on_create_character initState "c1" "alice" "wizard" 12).1

/-- Second creation on the same connection. -/
def c4s2 : ServerState := (on_create_character c4s1 "c1" "bob" "rogue" 8).1

/-- Claim C4, counterexample: a second character-creation request for a
connection that already has a session does NOT fail; the handler has no failure
path at all (lines 97-105 assign unconditionally), and the stored session is
silently replaced: the username changes from alice to bob and the sheet is
reset.  Hence no DuplicateSessionError behaviour exists in the code and the
existing session is not preserved. -/
theorem C4_counterexample :
    lookupKey c4s1.USERS "c1" = some ⟨"alice", ⟨"wizard", 12, []⟩, DEFAULT_ROOM⟩ ∧
      lookupKey c4s2.USERS "c1" = some ⟨"bob", ⟨"rogue", 8, []⟩, DEFAULT_ROOM⟩ := by
  decide

/-- Claim C4, amended: character creation is an unconditional silent overwrite:
for every prior state (whether or not the connection already has a session) the
handler succeeds, stores the new username, class, HP, empty inventory and
default room under the connection id, and emits exactly one character_update
with an empty inventory to that connection. -/
theorem C4_create_overwrites (s : ServerState) (sid username charClass : String)
    (maxHP : Int) :
    lookupKey (on_create_character s sid username charClass maxHP).1.USERS sid =
        some ⟨username, ⟨charClass, maxHP, []⟩, DEFAULT_ROOM⟩ ∧
      (on_create_character s sid username charClass maxHP).2 =
        [Emit.characterUpdate (Target.conn sid) []] :=
  ⟨lookupKey_setKey_self _ _ _, rfl⟩

/-! ## Claim C3: failed narrator calls -/

/-- Claim C3, confirmed: for every narrator call whose HTTP interaction fails
(a non-200 status or a raised exception, which covers transport errors and
timeouts), the call returns the corresponding diagnostic string — the embedding
is a total function, mirroring that the source catches every exception — and
when the target room exists the registry, and in particular that room story,
is returned exactly unchanged (the story append of line 82 runs only on the
success path). -/
theorem C3_failed_call (o : Oracle) (prompt room_id : String) (context : Option String)
    (rooms : Registry) (hfail : (failureDiagnostic o.outcome).isSome = true)
    (hroom : (lookupKey rooms room_id).isSome = true) :
    (call_ai_as_dm o prompt room_id context rooms).2 = rooms ∧
      some (call_ai_as_dm o prompt room_id context rooms).1 =
        failureDiagnostic o.outcome := by
  cases ho : o.outcome with
  | ok reply => rw [ho] at hfail; simp [failureDiagnostic] at hfail
  | status code => simp [call_ai_as_dm, ho, hroom, failureDiagnostic]
  | exn msg => simp [call_ai_as_dm, ho, hroom, failureDiagnostic]

/-- Registry used by the C3 witness. -/
def c3Rooms : Registry := [("cellar", ⟨"Old story.", {"alice"}⟩)]

/-- Oracle used by the C3 witness: the upstream returns HTTP 500. -/
def c3Oracle : Oracle := ⟨HttpResult.status 500, fun a _ => a, 0, "09:15"⟩

/-- Witness for C3 at a concrete failing call. -/
theorem C3_witness :
    (call_ai_as_dm c3Oracle "i attack" "cellar" none c3Rooms).2 = c3Rooms ∧
      some (call_ai_as_dm c3Oracle "i attack" "cellar" none c3Rooms).1 =
        failureDiagnostic c3Oracle.outcome :=
  C3_failed_call c3Oracle "i attack" "cellar" none c3Rooms (by decide) (by decide)

/-! ## Claim C6: story snapshot on join -/

/-- Claim C6, confirmed: on every join by a connection with an existing
session, the joining participant is privately sent a message containing the
slice of the last 500 characters of the room story as it stands at join time
(after the lazy room creation of lines 119-120); that slice never exceeds 500
characters, and equals the whole story whenever the story has at most 500
characters. -/
theorem C6_join_snapshot (s : ServerState) (sid : String) (room? : Option String)
    (sess : Session) (hsess : lookupKey s.USERS sid = some sess) :
    (Emit.msg (Target.conn sid) "DM (AI)"
        ("Current tale: " ++
          lastChars 500 (ensuredStory s.GAME_ROOMS (joinRoomId room?)) ++ "...")
        ∈ (on_join s sid room?).2) ∧
      (lastChars 500 (ensuredStory s.GAME_ROOMS (joinRoomId room?))).length ≤ 500 ∧
      ((ensuredStory s.GAME_ROOMS (joinRoomId room?)).length ≤ 500 →
        lastChars 500 (ensuredStory s.GAME_ROOMS (joinRoomId room?)) =
          ensuredStory s.GAME_ROOMS (joinRoomId room?)) := by
  refine ⟨?_, lastChars_length_le _ _, lastChars_of_length_le _ _⟩
  rcases hl : lookupKey s.GAME_ROOMS (joinRoomId room?) with _ | r
  · simp [on_join, hsess, hl, ensuredStory, lookupKey_setKey_self]
  · simp [on_join, hsess, hl, ensuredStory, lookupKey_setKey_self]

/-- State used by the C6 witness: one registered session, no rooms yet. -/
def c6State : ServerState := ⟨[], [("c1", ⟨"alice", ⟨"fighter", 10, []⟩, "cellar"⟩)]⟩

/-- Witness for C6 at a concrete join of a fresh room. -/
theorem C6_witness :
    (Emit.msg (Target.conn "c1") "DM (AI)"
        ("Current tale: " ++
          lastChars 500 (ensuredStory c6State.GAME_ROOMS (joinRoomId (some "cellar"))) ++ "...")
        ∈ (on_join c6State "c1" (some "cellar")).2) ∧
      (lastChars 500 (ensuredStory c6State.GAME_ROOMS (joinRoomId (some "cellar")))).length ≤ 500 ∧
      ((ensuredStory c6State.GAME_ROOMS (joinRoomId (some "cellar"))).length ≤ 500 →
        lastChars 500 (ensuredStory c6State.GAME_ROOMS (joinRoomId (some "cellar"))) =
          ensuredStory c6State.GAME_ROOMS (joinRoomId (some "cellar"))) :=
  C6_join_snapshot c6State "c1" (some "cellar") ⟨"alice", ⟨"fighter", 10, []⟩, "cellar"⟩
    (by decide)

/-! ## Claims C2 and C7 share a concrete reachable state with an empty room -/

/-- Oracle used to reach a persisted empty room: the narrator call succeeds
with a reply free of loot words. -/
def oracleOk : Oracle := ⟨HttpResult.ok "You swing at the goblin.", fun a _ => a, 0, "12:00"⟩

/-- State after one character creation on connection c1. -/
def st1 : ServerState := (step initState (Event.createCharacter "c1" "alice" "fighter" 10)).1

/-- State after c1 (who never joined any room) sends the triggering message
"i attack": the narrator call lazily creates the default room with an EMPTY
player set and persists it. -/
def emptyRoomState : ServerState := (step st1 (Event.message "c1" "i attack" oracleOk)).1

/-! ## Claim C7: room-list snapshots -/

/-- Claim C7, counterexample: a reachable state holds a registered room with
zero members (character creation followed by a triggering message, no join),
and the room-listing query of line 95 returns a mapping that includes that
room with a member count of 0 — so the query surface does not restrict itself
to rooms with at least one member.  (The join-time broadcast of line 126 uses
the same unfiltered comprehension, as the `on_join` embedding shows; only the
leave-time broadcast of line 149 filters.) -/
theorem C7_counterexample :
    Reachable emptyRoomState ∧
      ("main_adventure", 0) ∈ get_rooms emptyRoomState.GAME_ROOMS :=
  ⟨Reachable.step st1 (Event.message "c1" "i attack" oracleOk)
      (Reachable.step initState (Event.createCharacter "c1" "alice" "fighter" 10)
        Reachable.init),
    by decide⟩

/-- Claim C7, amended: the leave-time room-list broadcast (line 149) maps each
listed room id to its member count and includes only rooms whose member count
is at least one; but the room-listing query (line 95) and the join-time
broadcast (line 126) use the unfiltered mapping, which lists every registered
room — including reachable zero-member rooms — with its member count.  Every
entry of the filtered snapshot is positive and also present in the unfiltered
mapping, and every registered room appears in the unfiltered mapping. -/
theorem C7_room_lists (rooms : Registry) :
    (∀ k n, (k, n) ∈ roomsSnapshotNonempty rooms →
        0 < n ∧ (k, n) ∈ get_rooms rooms) ∧
      (∀ k r, (k, r) ∈ rooms → (k, r.players.card) ∈ get_rooms rooms) := by
  constructor
  · intro k n hmem
    simp only [roomsSnapshotNonempty, List.mem_map] at hmem
    obtain ⟨kv, hkv, heq⟩ := hmem
    rw [List.mem_filter] at hkv
    obtain ⟨hkvmem, hne⟩ := hkv
    obtain ⟨h1, h2⟩ := Prod.mk.injEq _ _ _ _ ▸ heq
    subst h1; subst h2
    constructor
    · exact Finset.card_pos.mpr
        (Finset.nonempty_iff_ne_empty.mpr (of_decide_eq_true hne))
    · exact List.mem_map.mpr ⟨kv, hkvmem, rfl⟩
  · intro k r hmem
    exact List.mem_map.mpr ⟨(k, r), hmem, rfl⟩

/-- Registry used by the C7 witness. -/
def c7Rooms : Registry := [("cellar", ⟨"s", {"alice"}⟩)]

/-- Witness for C7 at a concrete one-room registry. -/
theorem C7_witness : 0 < 1 ∧ ("cellar", 1) ∈ get_rooms c7Rooms :=
  (C7_room_lists c7Rooms).1 "cellar" 1 (by decide)

/-! ## Claim C2: rooms present iff non-empty -/

/-- Claim C2, counterexample: the registry invariant fails on a reachable
state: after a character creation and one triggering message (no join), the
default room is present in the registry with an EMPTY member set, persisted
past the narrator call that created it (lines 44-46 create the room before the
HTTP call and nothing removes it). -/
theorem C2_counterexample :
    Reachable emptyRoomState ∧ playersOf emptyRoomState "main_adventure" = some ∅ :=
  ⟨Reachable.step st1 (Event.message "c1" "i attack" oracleOk)
      (Reachable.step initState (Event.createCharacter "c1" "alice" "fighter" 10)
        Reachable.init),
    by decide⟩

/-- Helper for C2: in every state reachable without message events, every pair
stored in the room registry has a non-empty player set. -/
theorem registry_entries_nonempty (s : ServerState) (hs : ReachableNoNarrator s) :
    ∀ kr : String × RoomState, kr ∈ s.GAME_ROOMS → kr.2.players ≠ ∅ := by
  induction hs with
  | init => intro kr hkr; simp [initState] at hkr
  | step s' e hs' he ih =>
    intro kr hkr
    cases e with
    | message sid text o => simp [Event.isMessage] at he
    | createCharacter sid u c hp =>
      exact ih kr (by simpa [step, on_create_character] using hkr)
    | join sid room? =>
      rcases hu : lookupKey s'.USERS sid with _ | sess
      · exact ih kr (by simpa [step, on_join, hu] using hkr)
      · simp only [step, on_join, hu] at hkr
        rcases hl : lookupKey s'.GAME_ROOMS (joinRoomId room?) with _ | r0
        · rw [hl] at hkr
          simp only [Option.isSome_none, Bool.false_eq_true, if_false,
            lookupKey_setKey_self, Option.getD_some, setKey_setKey] at hkr
          rcases mem_setKey _ _ _ _ hkr with h | h
          · subst h
            exact Finset.insert_ne_empty _ _
          · exact ih kr h
        · rw [hl] at hkr
          simp only [Option.isSome_some, if_true, Option.getD_some] at hkr
          rcases mem_setKey _ _ _ _ hkr with h | h
          · subst h
            exact Finset.insert_ne_empty _ _
          · exact ih kr h
    | leave sid =>
      rcases hu : lookupKey s'.USERS sid with _ | sess
      · exact ih kr (by simpa [step, on_leave, hu] using hkr)
      · simp only [step, on_leave, hu] at hkr
        rcases hl : lookupKey s'.GAME_ROOMS sess.room with _ | r0
        · rw [hl] at hkr
          exact ih kr hkr
        · rw [hl] at hkr
          by_cases hemp : r0.players.erase sess.username = ∅
          · have hkr2 : kr ∈ eraseKey s'.GAME_ROOMS sess.room := by
              simpa [hemp] using hkr
            exact ih kr (mem_eraseKey _ _ _ hkr2)
          · have hkr2 : kr ∈ setKey s'.GAME_ROOMS sess.room
                ⟨r0.story_state, r0.players.erase sess.username⟩ := by
              simpa [hemp] using hkr
            rcases mem_setKey _ _ _ _ hkr2 with h | h
            · subst h
              simpa using hemp
            · exact ih kr h

/-- Claim C2, amended: in every state reachable using only character-creation,
join and leave events, a room id present in the registry always has a
non-empty member set — join immediately populates a freshly created room, and
leave deletes a room the moment its member set empties.  The restriction to
narrator-free traces is forced by the counterexample: a narrator call
targeting an unknown room id persists a room with an empty member set. -/
theorem C2_registry_invariant (s : ServerState) (hs : ReachableNoNarrator s)
    (id : String) (r : RoomState) (hr : lookupKey s.GAME_ROOMS id = some r) :
    r.players ≠ ∅ :=
  registry_entries_nonempty s hs (id, r) (mem_of_lookupKey_eq_some _ _ _ hr)

/-- State used by the C2 witness: create a character, then join the default
room. -/
def c2JoinState : ServerState :=
  (step (step initState (Event.createCharacter "c1" "alice" "fighter" 10)).1
    (Event.join "c1" none)).1

/-- Room stored for the default room id in `c2JoinState`. -/
def c2JoinedRoom : RoomState := ⟨newPartyStory, {"alice"}⟩

/-- Witness for C2 at a concrete narrator-free trace. -/
theorem C2_witness : c2JoinedRoom.players ≠ ∅ :=
  C2_registry_invariant c2JoinState
    (ReachableNoNarrator.step _ (Event.join "c1" none)
      (ReachableNoNarrator.step _ (Event.createCharacter "c1" "alice" "fighter" 10)
        ReachableNoNarrator.init (by decide))
      (by decide))
    "main_adventure" c2JoinedRoom (by decide)

/-! ## Claim C8: dice-roll annotation of narrator replies -/

/-- Claim C8, confirmed: for every successful narrator response, exactly when
the lowercased reply contains one of roll, attack, check, the returned text is
the reply with a single die-roll annotation appended, synthesized from one
unmodified d20 roll whose value lies between 1 and 20 (given the contract of
the random source); replies without a trigger word are returned verbatim; and
the stored story receives the same (possibly annotated) text that is
returned. -/
theorem C8_dice_annotation (o : Oracle) (reply prompt room_id : String)
    (context : Option String) (rooms : Registry)
    (hok : o.outcome = HttpResult.ok reply)
    (hrand : ∀ a b : Nat, a ≤ b → a ≤ o.rand a b ∧ o.rand a b ≤ b) :
    ((diceTrigger reply = true →
        (call_ai_as_dm o prompt room_id context rooms).1 =
          reply ++ " (DM rolls: " ++
            toString (generate_dice_roll o.rand "d20" 1 0) ++ " on d20)") ∧
      (diceTrigger reply = false →
        (call_ai_as_dm o prompt room_id context rooms).1 = reply) ∧
      1 ≤ generate_dice_roll o.rand "d20" 1 0 ∧
      generate_dice_roll o.rand "d20" 1 0 ≤ 20 ∧
      storyOf (call_ai_as_dm o prompt room_id context rooms).2 room_id =
        some (ensuredStoryDM rooms room_id ++ "\n" ++ o.time ++ ": " ++
          (call_ai_as_dm o prompt room_id context rooms).1)) := by
  have hside : dieSides "d20" = 20 := by decide
  have hroll : generate_dice_roll o.rand "d20" 1 0 = ((o.rand 1 20 : Nat) : Int) := by
    simp [generate_dice_roll, hside]
  obtain ⟨hlo, hhi⟩ := hrand 1 20 (by norm_num)
  refine ⟨?_, ?_, ?_, ?_, ?_⟩
  · intro htr
    simp [call_ai_as_dm, hok, htr]
  · intro htr
    simp [call_ai_as_dm, hok, htr]
  · rw [hroll]; exact_mod_cast hlo
  · rw [hroll]; exact_mod_cast hhi
  · rcases hl : lookupKey rooms room_id with _ | r
    · simp [call_ai_as_dm, hok, hl, ensuredStoryDM, storyOf, lookupKey_setKey_self]
    · simp [call_ai_as_dm, hok, hl, ensuredStoryDM, storyOf, lookupKey_setKey_self]

/-- Oracle used by the C8 witness: a successful reply containing the trigger
word roll, and the random source that always returns its lower bound. -/
def c8Oracle : Oracle := ⟨HttpResult.ok "Roll for initiative.", fun a _ => a, 0, "11:00"⟩

/-- Witness for C8 at a concrete successful call on an unknown room. -/
theorem C8_witness :
    ((diceTrigger "Roll for initiative." = true →
        (call_ai_as_dm c8Oracle "i attack" "cellar" none []).1 =
          "Roll for initiative." ++ " (DM rolls: " ++
            toString (generate_dice_roll c8Oracle.rand "d20" 1 0) ++ " on d20)") ∧
      (diceTrigger "Roll for initiative." = false →
        (call_ai_as_dm c8Oracle "i attack" "cellar" none []).1 = "Roll for initiative.") ∧
      1 ≤ generate_dice_roll c8Oracle.rand "d20" 1 0 ∧
      generate_dice_roll c8Oracle.rand "d20" 1 0 ≤ 20 ∧
      storyOf (call_ai_as_dm c8Oracle "i attack" "cellar" none []).2 "cellar" =
        some (ensuredStoryDM [] "cellar" ++ "\n" ++ c8Oracle.time ++ ": " ++
          (call_ai_as_dm c8Oracle "i attack" "cellar" none []).1)) :=
  C8_dice_annotation c8Oracle "Roll for initiative." "i attack" "cellar" none []
    rfl (fun a b h => ⟨Nat.le_refl a, h⟩)

/-! ## Claim C9: joining a second room never leaves the first -/

/-- Claim C9, confirmed: when a session whose room field is A and whose
username is a member of room A handles a join for a different room B, the
registry entry of A is left completely unchanged (so the username remains in
the member set of A, which therefore cannot empty and be deleted by this
switch), the username is inserted into the member set of B, and the session
room field becomes B. -/
theorem C9_join_without_leave (s : ServerState) (sid A B : String) (sess : Session)
    (rA : RoomState)
    (hsess : lookupKey s.USERS sid = some sess)
    (hroom : sess.room = A)
    (hA : lookupKey s.GAME_ROOMS A = some rA)
    (hmem : sess.username ∈ rA.players)
    (hAB : A ≠ B) (hB : B ≠ "") :
    lookupKey (on_join s sid (some B)).1.GAME_ROOMS A = some rA ∧
      playersOf (on_join s sid (some B)).1 B =
        some (insert sess.username
          (((lookupKey s.GAME_ROOMS B).getD ⟨newPartyStory, ∅⟩).players)) ∧
      sess.username ∈ insert sess.username
        (((lookupKey s.GAME_ROOMS B).getD ⟨newPartyStory, ∅⟩).players) ∧
      lookupKey (on_join s sid (some B)).1.USERS sid = some { sess with room := B } := by
  have hid : joinRoomId (some B) = B := by simp [joinRoomId, hB]
  refine ⟨?_, ?_, Finset.mem_insert_self _ _, ?_⟩
  · rcases hl : lookupKey s.GAME_ROOMS B with _ | rB
    · simp only [on_join, hsess, hid, hl, Option.isSome_none, Bool.false_eq_true,
        if_false, lookupKey_setKey_self, Option.getD_some, setKey_setKey]
      rw [lookupKey_setKey_ne _ _ _ _ hAB]
      exact hA
    · simp only [on_join, hsess, hid, hl, Option.isSome_some, if_true]
      rw [lookupKey_setKey_ne _ _ _ _ hAB]
      exact hA
  · rcases hl : lookupKey s.GAME_ROOMS B with _ | rB
    · simp [on_join, hsess, hid, hl, playersOf, lookupKey_setKey_self]
    · simp [on_join, hsess, hid, hl, playersOf, lookupKey_setKey_self]
  · simp [on_join, hsess, hid, lookupKey_setKey_self]

/-- State used by the C9 witness: alice is in room A, room B does not exist. -/
def c9State : ServerState :=
  ⟨[("roomA", ⟨"Tale A.", {"alice"}⟩)],
    [("c1", ⟨"alice", ⟨"fighter", 10, []⟩, "roomA"⟩)]⟩

/-- Witness for C9 at a concrete room switch without leaving. -/
theorem C9_witness :
    lookupKey (on_join c9State "c1" (some "roomB")).1.GAME_ROOMS "roomA" =
        some ⟨"Tale A.", {"alice"}⟩ ∧
      playersOf (on_join c9State "c1" (some "roomB")).1 "roomB" =
        some (insert "alice"
          (((lookupKey c9State.GAME_ROOMS "roomB").getD ⟨newPartyStory, ∅⟩).players)) ∧
      ("alice" : String) ∈ insert ("alice" : String)
        (((lookupKey c9State.GAME_ROOMS "roomB").getD ⟨newPartyStory, ∅⟩).players) ∧
      lookupKey (on_join c9State "c1" (some "roomB")).1.USERS "c1" =
        some ⟨"alice", ⟨"fighter", 10, []⟩, "roomB"⟩ :=
  C9_join_without_leave c9State "c1" "roomA" "roomB"
    ⟨"alice", ⟨"fighter", 10, []⟩, "roomA"⟩ ⟨"Tale A.", {"alice"}⟩
    (by decide) rfl (by decide) (by decide) (by decide) (by decide)

/-! ## Claim C10: leave keeps the session room field, a later message revives
the room -/

/-- Claim C10, confirmed: for a session that is the sole member of its room,
handling a leave removes the username and deletes the now-empty room, but the
USERS directory — hence the session room field — is untouched; a subsequent
triggering message from the same still-connected session is broadcast to the
departed room id, and the narrator call re-creates that room in the registry
with an empty member set.  The keys-distinct hypothesis is the representation
invariant of the Python dict. -/
theorem C10_leave_then_message (s : ServerState) (sid text : String) (o : Oracle)
    (sess : Session) (r : RoomState)
    (hnd : KeysNodup s.GAME_ROOMS)
    (hsess : lookupKey s.USERS sid = some sess)
    (hroom : lookupKey s.GAME_ROOMS sess.room = some r)
    (hsingle : r.players = {sess.username})
    (htrig : classify text = true) :
    (on_leave s sid).1.USERS = s.USERS ∧
      lookupKey (on_leave s sid).1.GAME_ROOMS sess.room = none ∧
      Emit.msg (Target.room sess.room false) sess.username text ∈
        (handle_message (on_leave s sid).1 sid text o).2 ∧
      playersOf (handle_message (on_leave s sid).1 sid text o).1 sess.room = some ∅ := by
  have hemp : r.players.erase sess.username = ∅ := by
    rw [hsingle]
    exact Finset.erase_singleton _
  have hleave : (on_leave s sid).1 = ⟨eraseKey s.GAME_ROOMS sess.room, s.USERS⟩ := by
    simp [on_leave, hsess, hroom, hemp]
  have hgone : lookupKey (eraseKey s.GAME_ROOMS sess.room) sess.room = none :=
    lookupKey_eraseKey_self _ _ hnd
  refine ⟨by rw [hleave], by rw [hleave]; exact hgone, ?_, ?_⟩
  · rw [hleave]
    cases ho : o.outcome with
    | ok reply =>
      by_cases hg : shouldGrantItem ((call_ai_as_dm o text sess.room
          (some (contextString sess.username sess.character))
          (eraseKey s.GAME_ROOMS sess.room)).1) = true
      · simp [handle_message, hsess, htrig, hg]
      · simp only [Bool.not_eq_true] at hg
        simp [handle_message, hsess, htrig, hg]
    | status code =>
      by_cases hg : shouldGrantItem ((call_ai_as_dm o text sess.room
          (some (contextString sess.username sess.character))
          (eraseKey s.GAME_ROOMS sess.room)).1) = true
      · simp [handle_message, hsess, htrig, hg]
      · simp only [Bool.not_eq_true] at hg
        simp [handle_message, hsess, htrig, hg]
    | exn msg =>
      by_cases hg : shouldGrantItem ((call_ai_as_dm o text sess.room
          (some (contextString sess.username sess.character))
          (eraseKey s.GAME_ROOMS sess.room)).1) = true
      · simp [handle_message, hsess, htrig, hg]
      · simp only [Bool.not_eq_true] at hg
        simp [handle_message, hsess, htrig, hg]
  · rw [hleave]
    have hcall : playersOf
        ⟨(call_ai_as_dm o text sess.room
            (some (contextString sess.username sess.character))
            (eraseKey s.GAME_ROOMS sess.room)).2, s.USERS⟩ sess.room = some ∅ := by
      cases ho : o.outcome with
      | ok reply =>
        simp [call_ai_as_dm, ho, hgone, playersOf, lookupKey_setKey_self, setKey_setKey]
      | status code =>
        simp [call_ai_as_dm, ho, hgone, playersOf, lookupKey_setKey_self]
      | exn msg =>
        simp [call_ai_as_dm, ho, hgone, playersOf, lookupKey_setKey_self]
    by_cases hg : shouldGrantItem ((call_ai_as_dm o text sess.room
        (some (contextString sess.username sess.character))
        (eraseKey s.GAME_ROOMS sess.room)).1) = true
    · simpa [handle_message, hsess, htrig, hg, playersOf] using hcall
    · simp only [Bool.not_eq_true] at hg
      simpa [handle_message, hsess, htrig, hg, playersOf] using hcall

/-- State used by the C10 witness: alice is the sole member of room cellar. -/
def c10State : ServerState :=
  ⟨[("cellar", ⟨"Once.", {"alice"}⟩)],
    [("c1", ⟨"alice", ⟨"fighter", 10, []⟩, "cellar"⟩)]⟩

/-- Oracle used by the C10 witness. -/
def c10Oracle : Oracle := ⟨HttpResult.ok "You hit the wall.", fun a _ => a, 0, "13:45"⟩

/-- Witness for C10 at a concrete leave followed by a triggering message. -/
theorem C10_witness :
    (on_leave c10State "c1").1.USERS = c10State.USERS ∧
      lookupKey (on_leave c10State "c1").1.GAME_ROOMS "cellar" = none ∧
      Emit.msg (Target.room "cellar" false) "alice" "i attack" ∈
        (handle_message (on_leave c10State "c1").1 "c1" "i attack" c10Oracle).2 ∧
      playersOf (handle_message (on_leave c10State "c1").1 "c1" "i attack" c10Oracle).1
          "cellar" = some ∅ :=
  C10_leave_then_message c10State "c1" "i attack" c10Oracle
    ⟨"alice", ⟨"fighter", 10, []⟩, "cellar"⟩ ⟨"Once.", {"alice"}⟩
    (by show (c10State.GAME_ROOMS.map Prod.fst).Nodup; decide)
    (by decide) (by decide) (by decide) (by decide)

/-! ## Claim C5: loot grant -/

/-- Claim C5, confirmed: for every narrator reply processed by the router (the
text returned by `call_ai_as_dm`, whose grant flag is by definition the
lowercased-containment test over find, loot, treasure), when the flag is true
exactly one item drawn from the fixed loot table is appended to the sending
session inventory (its length grows by exactly one) and the resulting
character_update is emitted only to the sender; when the flag is false the
inventory is unchanged and no character_update is emitted. -/
theorem C5_loot_grant (s : ServerState) (sid text : String) (o : Oracle) (sess : Session)
    (hsess : lookupKey s.USERS sid = some sess) (htrig : classify text = true) :
    ((shouldGrantItem ((call_ai_as_dm o text sess.room
          (some (contextString sess.username sess.character)) s.GAME_ROOMS).1) = true →
        lookupKey (handle_message s sid text o).1.USERS sid =
            some { sess with character :=
              { sess.character with
                inventory := sess.character.inventory ++ [lootItem o] } } ∧
          (sess.character.inventory ++ [lootItem o]).length =
            sess.character.inventory.length + 1 ∧
          lootItem o ∈ lootTable ∧
          Emit.characterUpdate (Target.conn sid)
              (sess.character.inventory ++ [lootItem o]) ∈
            (handle_message s sid text o).2 ∧
          (∀ t inv, Emit.characterUpdate t inv ∈ (handle_message s sid text o).2 →
            t = Target.conn sid)) ∧
      (shouldGrantItem ((call_ai_as_dm o text sess.room
          (some (contextString sess.username sess.character)) s.GAME_ROOMS).1) = false →
        lookupKey (handle_message s sid text o).1.USERS sid = some sess ∧
          (∀ t inv, Emit.characterUpdate t inv ∉ (handle_message s sid text o).2))) := by
  have hloot : lootItem o ∈ lootTable := by
    show lootTable.getD (o.choice % 4) "" ∈ lootTable
    have hlt : o.choice % 4 < 4 := Nat.mod_lt _ (by norm_num)
    rcases (by omega : o.choice % 4 = 0 ∨ o.choice % 4 = 1 ∨ o.choice % 4 = 2 ∨
        o.choice % 4 = 3) with h | h | h | h <;> rw [h] <;> decide
  constructor
  · intro hg
    refine ⟨?_, by simp, hloot, ?_, ?_⟩
    · simp [handle_message, hsess, htrig, hg, lookupKey_setKey_self]
    · simp [handle_message, hsess, htrig, hg]
    · intro t inv hmem
      simp [handle_message, hsess, htrig, hg] at hmem
      exact hmem.1
  · intro hg
    constructor
    · simp [handle_message, hsess, htrig, hg]
    · intro t inv hmem
      simp [handle_message, hsess, htrig, hg] at hmem

/-- State used by the C5 witness: one registered session, no rooms yet. -/
def c5State : ServerState := ⟨[], [("c1", ⟨"alice", ⟨"fighter", 10, []⟩, "cellar"⟩)]⟩

/-- Oracle used by the C5 witness: a successful reply containing the loot word
find, with choice index 2 (Gold Coin). -/
def c5Oracle : Oracle := ⟨HttpResult.ok "You find a sword.", fun a _ => a, 2, "10:30"⟩

/-- Witness for C5 at a concrete loot-granting turn. -/
theorem C5_witness :
    ((shouldGrantItem ((call_ai_as_dm c5Oracle "i search the chest" "cellar"
          (some (contextString "alice" ⟨"fighter", 10, []⟩)) c5State.GAME_ROOMS).1) = true →
        lookupKey (handle_message c5State "c1" "i search the chest" c5Oracle).1.USERS "c1" =
            some ⟨"alice", ⟨"fighter", 10, [] ++ [lootItem c5Oracle]⟩, "cellar"⟩ ∧
          (([] : List String) ++ [lootItem c5Oracle]).length =
            ([] : List String).length + 1 ∧
          lootItem c5Oracle ∈ lootTable ∧
          Emit.characterUpdate (Target.conn "c1") ([] ++ [lootItem c5Oracle]) ∈
            (handle_message c5State "c1" "i search the chest" c5Oracle).2 ∧
          (∀ t inv, Emit.characterUpdate t inv ∈
              (handle_message c5State "c1" "i search the chest" c5Oracle).2 →
            t = Target.conn "c1")) ∧
      (shouldGrantItem ((call_ai_as_dm c5Oracle "i search the chest" "cellar"
          (some (contextString "alice" ⟨"fighter", 10, []⟩)) c5State.GAME_ROOMS).1) = false →
        lookupKey (handle_message c5State "c1" "i search the chest" c5Oracle).1.USERS "c1" =
            some ⟨"alice", ⟨"fighter", 10, []⟩, "cellar"⟩ ∧
          (∀ t inv, Emit.characterUpdate t inv ∉
            (handle_message c5State "c1" "i search the chest" c5Oracle).2))) :=
  C5_loot_grant c5State "c1" "i search the chest" c5Oracle
    ⟨"alice", ⟨"fighter", 10, []⟩, "cellar"⟩ (by decide) (by decide)
